import Mathlib

/-!
# Pagination re-windowing layer of the TMDb wrapper

Shallow embedding of the pagination core of the repository:

* `Endpoint._requestResults` (src/V3/structures/Endpoint.js), the paginator
  that translates the caller's virtual page frame into the backing API's
  fixed-size remote page frame;
* the transport error classification of `Endpoint._request`;
* the `V3` client constructor (src/V3/index.js).

JavaScript numbers are modelled by `ℚ` (all arithmetic the claims touch is
exact there), JS array `splice` and the truncating `%` operator are modelled
by `jsSplice`, `jsTrunc` and `jsMod`, and the falsy-default `params.page || 1`
by `pageInput`.
-/

namespace TMDb

/-- Truncation toward zero, as JavaScript `Math.trunc` / the integer coercion
applied by `Array.prototype.splice` to its arguments. -/
def jsTrunc (q : ℚ) : ℤ :=
  if 0 ≤ q then ⌊q⌋ else ⌈q⌉

/-- JavaScript's remainder operator `a % b`: `a - b * trunc(a / b)`. -/
def jsMod (a b : ℚ) : ℚ :=
  a - b * (jsTrunc (a / b) : ℚ)

/-- JavaScript `arr.splice(start, deleteCount)`: removes (and here, returns)
up to `deleteCount` elements starting at `start`, clamping both arguments to
the array bounds. -/
def jsSplice (l : List α) (start cnt : ℤ) : List α :=
  let len : ℤ := l.length
  let s : ℕ := (if start < 0 then max (len + start) 0 else min start len).toNat
  (l.drop s).take (max cnt 0).toNat

/-- `params.page || 1` (src/V3/structures/Endpoint.js line 103): an absent
page and the falsy page `0` both default to `1`. -/
def pageInput : Option ℤ → ℤ
  | none => 1
  | some p => if p = 0 then 1 else p

/-- Query parameters handed to `_requestResults`: the pagination field
`page`, plus the remaining parameters (forwarded verbatim), of type `ρ`. -/
structure Params (ρ : Type) where
  page : Option ℤ
  rest : ρ

/-- A request actually issued to the transport: the `page` query parameter it
carries and the other parameters. -/
structure Request (ρ : Type) where
  page : Option ℤ
  rest : ρ
  deriving DecidableEq

/-- The body returned by the backing API for a paginated endpoint:
`results` and `total_results`. -/
structure RemotePage (α : Type) where
  results : List α
  total_results : ℕ
  deriving DecidableEq

/-- The three classified transport failures of `Endpoint._request`
(src/V3/structures/Endpoint.js lines 70-76). -/
inductive TransportError where
  /-- `error.response` present: the rejection carries the server's payload. -/
  | serverError (payload : String)
  /-- `error.request` present: request was made but no response was received. -/
  | noResponse
  /-- anything else: unknown error when sending request. -/
  | unknownError
  deriving DecidableEq

/-- The failures `_requestResults` can reject with. -/
inductive PageError where
  /-- `Page must be less than or equal to ${wrapperPageLimit}` (line 107). -/
  | pageLimitExceeded (limit : ℚ)
  /-- a transport failure, re-rejected unchanged (line 115). -/
  | transport (e : TransportError)
  /-- `No results.` (line 122). -/
  | noResults
  deriving DecidableEq

/-- A result record after the index-annotation loop (lines 124-125). -/
structure Annot (α : Type) where
  payload : α
  index : ℤ
  deriving DecidableEq

/-- The reshaped page returned to the caller (lines 130-135). -/
structure VirtualPage (α : Type) where
  page : ℤ
  total_pages : ℤ
  total_results : ℕ
  results : List (Annot α)
  deriving DecidableEq

/-- Outcome of `_requestResults`: either the raw response (pass-through when
`results_per_page` is unset) or a reshaped `VirtualPage`. -/
inductive ReqOutcome (α : Type) where
  | raw (r : RemotePage α)
  | page (v : VirtualPage α)
  deriving DecidableEq

/-- The index-annotation loop of lines 124-125, with `i` the running position:
`response.results[i].index = (requestPage - 1) * apiResultsPerPage + i + 1`
(the remote page size constant is 20). -/
def annotateFrom (requestPage : ℤ) : ℕ → List α → List (Annot α)
  | _, [] => []
  | i, a :: l => ⟨a, (requestPage - 1) * 20 + (i : ℤ) + 1⟩ :: annotateFrom requestPage (i + 1) l

/-- Index annotation of a full remote result list, starting at position 0. -/
def annotate (requestPage : ℤ) (l : List α) : List (Annot α) :=
  annotateFrom requestPage 0 l

/-- `Endpoint._requestResults` (src/V3/structures/Endpoint.js lines 89-136).
`vps` is `this._wrapperOptions.results_per_page` (`0` models a falsy value),
`t` is the transport (`this._request`). Besides the outcome, the list of
requests issued through the transport is returned, in order. -/
def requestResults (vps : ℕ) (params : Params ρ)
    (t : Request ρ → Except TransportError (RemotePage α)) :
    List (Request ρ) × Except PageError (ReqOutcome α) :=
  -- `if (!this._wrapperOptions.results_per_page) return this._request(...)`
  if vps = 0 then
    let req : Request ρ := ⟨params.page, params.rest⟩
    ([req], match t req with
      | .error e => .error (.transport e)
      | .ok r => .ok (.raw r))
  else
    let apiResultsPerPage : ℚ := 20
    -- `results_per_page || apiResultsPerPage`; the fallback is unreachable
    -- here because of the guard above.
    let wrapperResultsPerPage : ℚ := if vps = 0 then apiResultsPerPage else (vps : ℚ)
    let offsetCount : ℚ := apiResultsPerPage / wrapperResultsPerPage
    let apiPageLimit : ℚ := 1000
    let wrapperPageLimit : ℚ := apiPageLimit * offsetCount
    let inputPage : ℤ := pageInput params.page
    let requestPage : ℤ := ⌈(inputPage : ℚ) / offsetCount⌉
    if (inputPage : ℚ) < 1 ∨ (inputPage : ℚ) > wrapperPageLimit then
      ([], .error (.pageLimitExceeded wrapperPageLimit))
    else
      let req : Request ρ := ⟨some requestPage, params.rest⟩
      match t req with
      | .error e => ([req], .error (.transport e))
      | .ok response =>
        let offsetNumber : ℚ := jsMod ((inputPage : ℚ) - 1) offsetCount
        let offsetPosition : ℚ := offsetNumber * wrapperResultsPerPage
        if response.results.length = 0 ∨
            offsetPosition > (response.results.length : ℚ) then
          ([req], .error .noResults)
        else
          let annotated := annotate requestPage response.results
          let wrapperTotalPages : ℤ :=
            ⌈(response.total_results : ℚ) / wrapperResultsPerPage⌉
          let wrapperResults :=
            jsSplice annotated (jsTrunc offsetPosition) (jsTrunc wrapperResultsPerPage)
          ([req], .ok (.page
            { page := inputPage
              total_pages := wrapperTotalPages
              total_results := response.total_results
              results := wrapperResults }))

/-- The raw shape of an axios rejection, as inspected by the `catch` block of
`Endpoint._request`: an optional `error.response` (modelled by its payload)
and the flag `error.request` (a request object is present). -/
structure AxiosFailure where
  response : Option String
  request : Bool
  deriving DecidableEq

/-- The `catch` block of `Endpoint._request` (lines 70-76): classify an axios
failure into one of the three transport errors. -/
def classifyAxiosFailure (e : AxiosFailure) : TransportError :=
  match e.response with
  | some payload => .serverError payload
  | none => if e.request then .noResponse else .unknownError

/-- API options accepted by the `V3` constructor (src/V3/index.js); each
field defaults to `null`, modelled by `none`. -/
structure ApiOptions where
  api_key : Option String
  session_id : Option String := none
  guest_session_id : Option String := none
  include_image_language : Option String := none
  language : Option String := none
  region : Option String := none
  deriving DecidableEq

/-- Wrapper options accepted by the `V3` constructor; `none` models an
absent key, whose default is applied by the option merge. -/
structure WrapperOptions where
  results_per_page : Option ℕ := none
  always_use_results : Option Bool := none
  custom_id : Option Bool := none
  deriving DecidableEq

/-- JS truthiness of an optional string: `undefined`/`null` (absent) and the
empty string are falsy. -/
def jsTruthyStr : Option String → Bool
  | none => false
  | some s => !(s == "")

/-- The five resource objects the `V3` constructor creates. -/
inductive ResourceKind where
  | find
  | search
  | movie
  | tv
  | person
  deriving DecidableEq

/-- The state of a fully constructed `V3` client. -/
structure V3State where
  version : ℕ
  apiOptions : ApiOptions
  results_per_page : ℕ
  always_use_results : Bool
  custom_id : Bool
  resources : List ResourceKind
  deriving DecidableEq

/-- The `V3` constructor (src/V3/index.js lines 38-68). It merges the option
objects over their defaults (identity on this model, whose absent fields are
already `none`, except for the wrapper defaults applied here), then throws
`API key required.` when `apiOptions.api_key` is falsy, and only after that
check creates the five resource objects. The list returned alongside the
outcome records which resource objects were created, in order. -/
def constructV3 (apiOptions : ApiOptions) (wrapperOptions : WrapperOptions) :
    List ResourceKind × Except String V3State :=
  let rpp : ℕ := wrapperOptions.results_per_page.getD 20
  let aur : Bool := wrapperOptions.always_use_results.getD false
  let cid : Bool := wrapperOptions.custom_id.getD false
  if jsTruthyStr apiOptions.api_key = false then
    ([], Except.error "API key required.")
  else
    ([.find, .search, .movie, .tv, .person], Except.ok
      { version := 3
        apiOptions := apiOptions
        results_per_page := rpp
        always_use_results := aur
        custom_id := cid
        resources := [.find, .search, .movie, .tv, .person] })

/-! ## Arithmetic facts about the JS primitives -/

theorem jsTrunc_natCast (n : ℕ) : jsTrunc (n : ℚ) = n := by
  unfold jsTrunc
  rw [if_pos (by positivity), Int.floor_natCast]

theorem jsSplice_natCast (l : List α) (n c : ℕ) :
    jsSplice l (n : ℤ) (c : ℤ) = (l.drop n).take c := by
  unfold jsSplice
  dsimp only
  rw [if_neg (not_lt.mpr (Int.natCast_nonneg n))]
  have h2 : (min (n : ℤ) (l.length : ℤ)).toNat = min n l.length := by
    rw [← Nat.cast_min]; exact Int.toNat_natCast _
  have h3 : (max (c : ℤ) 0).toNat = c := by simp
  rw [h2, h3]
  rcases le_total n l.length with h | h
  · rw [min_eq_left h]
  · rw [min_eq_right h, List.drop_eq_nil_of_le le_rfl, List.drop_eq_nil_of_le h]

theorem jsMod_natCast (a b : ℕ) : jsMod (a : ℚ) (b : ℚ) = ((a % b : ℕ) : ℚ) := by
  rcases Nat.eq_zero_or_pos b with hb | hb
  · subst hb
    simp [jsMod, jsTrunc]
  unfold jsMod jsTrunc
  rw [if_pos (by positivity), Rat.floor_natCast_div_natCast, ← Int.natCast_div,
    Int.cast_natCast]
  have h2 : (b : ℚ) * ((a / b : ℕ) : ℚ) + ((a % b : ℕ) : ℚ) = (a : ℚ) := by
    exact_mod_cast Nat.div_add_mod a b
  linarith

/-- With `vps` a positive divisor of the remote page size, the rational
`offsetCount = 20 / vps` computed by the code is the natural number
`20 / vps`. -/
theorem offsetCount_natCast (vps : ℕ) (hd : vps ∣ 20) (h0 : 0 < vps) :
    (20 : ℚ) / (vps : ℚ) = ((20 / vps : ℕ) : ℚ) := by
  rw [Nat.cast_div hd (by exact_mod_cast h0.ne')]
  norm_num

theorem pageInput_some (p : ℤ) (hp : p ≠ 0) : pageInput (some p) = p := by
  simp [pageInput, hp]

/-! ## Facts about the annotation loop -/

theorem annotateFrom_length (rp : ℤ) (i : ℕ) (l : List α) :
    (annotateFrom rp i l).length = l.length := by
  induction l generalizing i with
  | nil => rfl
  | cons a l ih => simp [annotateFrom, ih]

theorem annotate_length (rp : ℤ) (l : List α) :
    (annotate rp l).length = l.length :=
  annotateFrom_length rp 0 l

theorem annotateFrom_drop (rp : ℤ) (l : List α) (i n : ℕ) :
    (annotateFrom rp i l).drop n = annotateFrom rp (i + n) (l.drop n) := by
  induction l generalizing i n with
  | nil => simp [annotateFrom]
  | cons a l ih =>
    cases n with
    | zero => simp [annotateFrom]
    | succ n =>
      simp only [annotateFrom, List.drop_succ_cons, ih]
      congr 1
      omega

theorem annotateFrom_take (rp : ℤ) (l : List α) (i n : ℕ) :
    (annotateFrom rp i l).take n = annotateFrom rp i (l.take n) := by
  induction l generalizing i n with
  | nil => simp [annotateFrom]
  | cons a l ih =>
    cases n with
    | zero => simp [annotateFrom]
    | succ n => simp [annotateFrom, ih]

theorem annotateFrom_get (rp : ℤ) (l : List α) (i j : ℕ)
    (hj : j < (annotateFrom rp i l).length) (hj' : j < l.length) :
    (annotateFrom rp i l).get ⟨j, hj⟩
      = ⟨l.get ⟨j, hj'⟩, (rp - 1) * 20 + ((i + j : ℕ) : ℤ) + 1⟩ := by
  induction l generalizing i j with
  | nil => cases hj'
  | cons a l ih =>
    cases j with
    | zero => simp [annotateFrom]
    | succ j =>
      have hlen : j < (annotateFrom rp (i + 1) l).length := by
        rw [annotateFrom_length]
        exact Nat.lt_of_succ_lt_succ hj'
      simp only [annotateFrom, List.get_cons_succ]
      rw [ih (i + 1) j hlen (Nat.lt_of_succ_lt_succ hj')]
      congr 2
      omega

/-! ## Branch evaluation lemmas for `requestResults` -/

/-- Pass-through branch: a falsy `results_per_page` forwards the request
unchanged and returns the raw response. -/
theorem requestResults_zero (params : Params ρ)
    (t : Request ρ → Except TransportError (RemotePage α)) :
    requestResults 0 params t =
      ([⟨params.page, params.rest⟩],
        match t ⟨params.page, params.rest⟩ with
        | .error e => .error (.transport e)
        | .ok r => .ok (.raw r)) := rfl

/-- Pre-flight rejection branch: an out-of-range effective input page is
rejected with the page-limit error before any request is issued. -/
theorem requestResults_reject (vps : ℕ) (params : Params ρ)
    (t : Request ρ → Except TransportError (RemotePage α)) (p : ℤ)
    (hv : vps ≠ 0) (hpi : pageInput params.page = p)
    (hout : (p : ℚ) < 1 ∨ (p : ℚ) > 1000 * ((20 : ℚ) / (vps : ℚ))) :
    requestResults vps params t =
      ([], .error (.pageLimitExceeded (1000 * ((20 : ℚ) / (vps : ℚ))))) := by
  unfold requestResults
  rw [if_neg hv]
  dsimp only
  rw [if_neg hv, hpi, if_pos hout]

/-- Transport failure branch: after the single request is issued, a transport
failure is re-rejected unchanged. -/
theorem requestResults_eval_err (vps : ℕ) (params : Params ρ)
    (t : Request ρ → Except TransportError (RemotePage α)) (p : ℤ) (e : TransportError)
    (hv : vps ≠ 0) (hpi : pageInput params.page = p)
    (hin : ¬((p : ℚ) < 1 ∨ (p : ℚ) > 1000 * ((20 : ℚ) / (vps : ℚ))))
    (ht : t ⟨some ⌈(p : ℚ) / ((20 : ℚ) / (vps : ℚ))⌉, params.rest⟩ = .error e) :
    requestResults vps params t =
      ([⟨some ⌈(p : ℚ) / ((20 : ℚ) / (vps : ℚ))⌉, params.rest⟩],
        .error (.transport e)) := by
  unfold requestResults
  rw [if_neg hv]
  dsimp only
  rw [if_neg hv, hpi, if_neg hin, ht]

/-- Success branch: after the single request is issued and a response is
received, the outcome is the no-results check followed by the reshaped
virtual page. -/
theorem requestResults_eval_ok (vps : ℕ) (params : Params ρ)
    (t : Request ρ → Except TransportError (RemotePage α)) (p : ℤ) (resp : RemotePage α)
    (hv : vps ≠ 0) (hpi : pageInput params.page = p)
    (hin : ¬((p : ℚ) < 1 ∨ (p : ℚ) > 1000 * ((20 : ℚ) / (vps : ℚ))))
    (ht : t ⟨some ⌈(p : ℚ) / ((20 : ℚ) / (vps : ℚ))⌉, params.rest⟩ = .ok resp) :
    requestResults vps params t =
      ([⟨some ⌈(p : ℚ) / ((20 : ℚ) / (vps : ℚ))⌉, params.rest⟩],
        if resp.results.length = 0 ∨
            jsMod ((p : ℚ) - 1) ((20 : ℚ) / (vps : ℚ)) * (vps : ℚ)
              > (resp.results.length : ℚ) then
          .error .noResults
        else
          .ok (.page
            { page := p
              total_pages := ⌈(resp.total_results : ℚ) / (vps : ℚ)⌉
              total_results := resp.total_results
              results := jsSplice (annotate ⌈(p : ℚ) / ((20 : ℚ) / (vps : ℚ))⌉ resp.results)
                (jsTrunc (jsMod ((p : ℚ) - 1) ((20 : ℚ) / (vps : ℚ)) * (vps : ℚ)))
                (jsTrunc (vps : ℚ)) })) := by
  unfold requestResults
  rw [if_neg hv]
  dsimp only
  rw [if_neg hv, hpi, if_neg hin, ht]
  dsimp only
  split
  · rfl
  · rfl

/-- Whenever the effective input page is in range, exactly one request is
issued, regardless of what the transport does. -/
theorem requestResults_trace (vps : ℕ) (params : Params ρ)
    (t : Request ρ → Except TransportError (RemotePage α)) (p : ℤ)
    (hv : vps ≠ 0) (hpi : pageInput params.page = p)
    (hin : ¬((p : ℚ) < 1 ∨ (p : ℚ) > 1000 * ((20 : ℚ) / (vps : ℚ)))) :
    (requestResults vps params t).1
      = [⟨some ⌈(p : ℚ) / ((20 : ℚ) / (vps : ℚ))⌉, params.rest⟩] := by
  cases ht : t ⟨some ⌈(p : ℚ) / ((20 : ℚ) / (vps : ℚ))⌉, params.rest⟩ with
  | error e => rw [requestResults_eval_err vps params t p e hv hpi hin ht]
  | ok resp => rw [requestResults_eval_ok vps params t p resp hv hpi hin ht]

theorem jsMod_zero_left (b : ℚ) : jsMod 0 b = 0 := by
  simp [jsMod, jsTrunc]

/-- An effective input page between `1` and the natural number
`1000 * (20 / vps)` passes the rational range check of the code. -/
theorem inRange_q (vps : ℕ) (q : ℤ) (h0 : 0 < vps) (hp : 1 ≤ q)
    (hpl : q ≤ 1000 * ((20 / vps : ℕ) : ℤ)) :
    ¬((q : ℚ) < 1 ∨ (q : ℚ) > 1000 * ((20 : ℚ) / (vps : ℚ))) := by
  rintro (h | h)
  · have h1 : (1 : ℚ) ≤ (q : ℚ) := by exact_mod_cast hp
    linarith
  · have h1 : (q : ℚ) ≤ ((1000 * ((20 / vps : ℕ) : ℤ) : ℤ) : ℚ) := Int.cast_le.mpr hpl
    have h2 : ((20 / vps : ℕ) : ℚ) ≤ (20 : ℚ) / (vps : ℚ) := Nat.cast_div_le
    simp only [Int.cast_mul, Int.cast_natCast, Int.cast_ofNat] at h1
    linarith

/-- For `vps` a positive divisor of 20, an input page below `1` or above the
natural number `1000 * (20 / vps)` fails the rational range check. -/
theorem outRange_q (vps : ℕ) (q : ℤ) (hd : vps ∣ 20) (h0 : 0 < vps)
    (hgt : q < 1 ∨ 1000 * ((20 / vps : ℕ) : ℤ) < q) :
    (q : ℚ) < 1 ∨ (q : ℚ) > 1000 * ((20 : ℚ) / (vps : ℚ)) := by
  rcases hgt with h | h
  · left; exact_mod_cast h
  · right
    rw [offsetCount_natCast vps hd h0]
    have h1 : ((1000 * ((20 / vps : ℕ) : ℤ) : ℤ) : ℚ) < (q : ℚ) := Int.cast_lt.mpr h
    simp only [Int.cast_mul, Int.cast_natCast, Int.cast_ofNat] at h1
    linarith

/-- For `vps` a positive divisor of 20 and `1 ≤ p`, the rational
`offsetPosition` computed by the code is the natural number
`((p - 1) % offsetCount) * vps`. -/
theorem offsetPosition_natCast (vps p : ℕ) (hd : vps ∣ 20) (h0 : 0 < vps)
    (hp : 1 ≤ p) :
    jsMod ((p : ℚ) - 1) ((20 : ℚ) / (vps : ℚ)) * (vps : ℚ)
      = (((p - 1) % (20 / vps) * vps : ℕ) : ℚ) := by
  rw [offsetCount_natCast vps hd h0,
    show ((p : ℚ) - 1) = (((p - 1 : ℕ)) : ℚ) from by
      rw [Nat.cast_sub hp, Nat.cast_one],
    jsMod_natCast]
  push_cast
  ring

/-! ## The claims -/

/-- Claim C1: for every valid request (`virtualPage` in range,
`virtualPageSize` dividing the remote page size 20), the paginated fetch
issues exactly one remote request — never zero, never more than one — and
that request carries `page = ⌈virtualPage / offsetCount⌉` where
`offsetCount = 20 / virtualPageSize`, with all other query parameters
forwarded unchanged. -/
theorem claim_C1 (vps p : ℕ) (rest : ρ)
    (t : Request ρ → Except TransportError (RemotePage α))
    (hd : vps ∣ 20) (hp : 1 ≤ p) (hpl : p ≤ 1000 * (20 / vps)) :
    (requestResults vps ⟨some (p : ℤ), rest⟩ t).1
      = [⟨some ⌈(p : ℚ) / ((20 : ℚ) / (vps : ℚ))⌉, rest⟩] := by
  have h0 : 0 < vps := Nat.pos_of_dvd_of_pos hd (by norm_num)
  have hq : pageInput (some (p : ℤ)) = ((p : ℕ) : ℤ) :=
    pageInput_some _ (by exact_mod_cast Nat.one_le_iff_ne_zero.mp hp)
  have h := requestResults_trace vps ⟨some (p : ℤ), rest⟩ t (p : ℤ) h0.ne' hq
    (inRange_q vps (p : ℤ) h0 (by exact_mod_cast hp) (by exact_mod_cast hpl))
  rw [Int.cast_natCast] at h
  exact h

theorem claim_C1_witness :
    (requestResults 10 ⟨some ((3 : ℕ) : ℤ), ()⟩
        (fun _ => Except.ok (⟨[], 0⟩ : RemotePage ℕ))).1
      = [⟨some ⌈((3 : ℕ) : ℚ) / ((20 : ℚ) / ((10 : ℕ) : ℚ))⌉, ()⟩] :=
  claim_C1 10 3 () (fun _ => Except.ok (⟨[], 0⟩ : RemotePage ℕ))
    (by decide) (by decide) (by decide)

/-- Claim C2 counterexample: `virtualPage = 0` lies outside
`[1, virtualPageLimit]`, yet the fetch performs a network call and succeeds:
the falsy default `params.page || 1` turns the page `0` into page `1` before
the range check runs. -/
theorem claim_C2_counterexample :
    (requestResults 10 ⟨some (0 : ℤ), ()⟩
        (fun _ => Except.ok (⟨[37], 1⟩ : RemotePage ℕ))).1 ≠ [] ∧
    ∃ v, (requestResults 10 ⟨some (0 : ℤ), ()⟩
        (fun _ => Except.ok (⟨[37], 1⟩ : RemotePage ℕ))).2
      = Except.ok (ReqOutcome.page v) := by
  have h := requestResults_eval_ok 10 ⟨some (0 : ℤ), ()⟩
    (fun _ => Except.ok (⟨[37], 1⟩ : RemotePage ℕ)) 1 ⟨[37], 1⟩
    (by decide) (by decide) (inRange_q 10 1 (by decide) (by decide) (by decide)) rfl
  have hguard : ¬((⟨[37], 1⟩ : RemotePage ℕ).results.length = 0 ∨
      jsMod (((1 : ℤ) : ℚ) - 1) ((20 : ℚ) / ((10 : ℕ) : ℚ)) * ((10 : ℕ) : ℚ)
        > (((⟨[37], 1⟩ : RemotePage ℕ).results.length : ℕ) : ℚ)) := by
    push_neg
    refine ⟨by simp, ?_⟩
    rw [show (((1 : ℤ) : ℚ) - 1) = 0 from by norm_num, jsMod_zero_left]
    simp
  rw [h, if_neg hguard]
  exact ⟨by simp, _, rfl⟩

/-- Claim C2 (amended): for every **nonzero** `virtualPage` outside
`[1, virtualPageLimit]`, the paginated fetch fails with the out-of-range
error and performs no network call; `virtualPage = 0` is excluded because
the falsy default `params.page || 1` coerces it to page `1`, which proceeds
normally. -/
theorem claim_C2_amended (vps : ℕ) (p : ℤ) (rest : ρ)
    (t : Request ρ → Except TransportError (RemotePage α))
    (hd : vps ∣ 20) (hp0 : p ≠ 0)
    (hout : p < 1 ∨ 1000 * ((20 / vps : ℕ) : ℤ) < p) :
    requestResults vps ⟨some p, rest⟩ t
      = ([], .error (.pageLimitExceeded (1000 * ((20 : ℚ) / (vps : ℚ))))) := by
  have h0 : 0 < vps := Nat.pos_of_dvd_of_pos hd (by norm_num)
  exact requestResults_reject vps _ t p h0.ne' (pageInput_some p hp0)
    (outRange_q vps p hd h0 hout)

theorem claim_C2_amended_witness :
    requestResults 10 ⟨some (2001 : ℤ), ()⟩
        (fun _ => Except.ok (⟨[], 0⟩ : RemotePage ℕ))
      = ([], .error (.pageLimitExceeded (1000 * ((20 : ℚ) / ((10 : ℕ) : ℚ))))) :=
  claim_C2_amended 10 2001 () (fun _ => Except.ok (⟨[], 0⟩ : RemotePage ℕ))
    (by decide) (by decide) (Or.inr (by decide))

/-- Claim C3 counterexample: with `virtualPageSize = 10` the claim puts the
limit on `virtualPage` at `500 * 2 = 1000`, so `virtualPage = 1001` should be
rejected before any network call; instead the code (whose constant is
`apiPageLimit = 1000`, giving `wrapperPageLimit = 2000`) issues a request. -/
theorem claim_C3_counterexample :
    (requestResults 10 ⟨some (1001 : ℤ), ()⟩
        (fun _ => Except.ok (⟨[], 0⟩ : RemotePage ℕ))).1 ≠ [] := by
  have h := requestResults_trace 10 ⟨some (1001 : ℤ), ()⟩
    (fun _ => Except.ok (⟨[], 0⟩ : RemotePage ℕ)) 1001
    (by decide) (pageInput_some 1001 (by decide))
    (inRange_q 10 1001 (by decide) (by decide) (by decide))
  rw [h]
  simp

/-- Claim C3 (amended): the virtual page limit used by the out-of-range
check equals `apiPageLimit * offsetCount` where the constant in this code
path is `apiPageLimit = 1000` (not the backing API's 500): for `1 ≤ p` the
fetch is rejected with no request issued iff `p > 1000 * (20 / vps)` (so for
`virtualPageSize = 10` the limit on `virtualPage` is 2000, not 1000). -/
theorem claim_C3_amended (vps p : ℕ) (rest : ρ)
    (t : Request ρ → Except TransportError (RemotePage α))
    (hd : vps ∣ 20) (hp : 1 ≤ p) :
    (requestResults vps ⟨some (p : ℤ), rest⟩ t).1 = []
      ↔ 1000 * (20 / vps) < p := by
  have h0 : 0 < vps := Nat.pos_of_dvd_of_pos hd (by norm_num)
  have hq : pageInput (some (p : ℤ)) = ((p : ℕ) : ℤ) :=
    pageInput_some _ (by exact_mod_cast Nat.one_le_iff_ne_zero.mp hp)
  constructor
  · intro h
    by_contra hle
    push_neg at hle
    rw [requestResults_trace vps ⟨some (p : ℤ), rest⟩ t (p : ℤ) h0.ne' hq
      (inRange_q vps (p : ℤ) h0 (by exact_mod_cast hp) (by exact_mod_cast hle))] at h
    simp at h
  · intro hgt
    rw [requestResults_reject vps ⟨some (p : ℤ), rest⟩ t (p : ℤ) h0.ne' hq
      (outRange_q vps (p : ℤ) hd h0 (Or.inr (by exact_mod_cast hgt)))]

theorem claim_C3_amended_witness :
    ((requestResults 10 ⟨some ((1 : ℕ) : ℤ), ()⟩
        (fun _ => Except.ok (⟨[], 0⟩ : RemotePage ℕ))).1 = []
      ↔ 1000 * (20 / 10) < 1) :=
  claim_C3_amended 10 1 () (fun _ => Except.ok (⟨[], 0⟩ : RemotePage ℕ))
    (by decide) (by decide)

/-- The fully evaluated success branch, in natural-number form: for a valid
request whose remote page clears the no-results check, the fetch returns the
reshaped virtual page whose `results` are the `vps`-long slice of the
index-annotated remote results starting at
`offsetPosition = ((p - 1) % offsetCount) * vps`. -/
theorem requestResults_success (vps p : ℕ) (rest : ρ) (resp : RemotePage α)
    (hd : vps ∣ 20) (hp : 1 ≤ p) (hpl : p ≤ 1000 * (20 / vps))
    (hguard : ¬(resp.results.length = 0 ∨
      resp.results.length < (p - 1) % (20 / vps) * vps)) :
    (requestResults vps ⟨some (p : ℤ), rest⟩ (fun _ => Except.ok resp)).2
      = Except.ok (ReqOutcome.page
          { page := (p : ℤ)
            total_pages := ⌈(resp.total_results : ℚ) / (vps : ℚ)⌉
            total_results := resp.total_results
            results := ((annotate ⌈(p : ℚ) / ((20 : ℚ) / (vps : ℚ))⌉ resp.results).drop
                ((p - 1) % (20 / vps) * vps)).take vps }) := by
  have h0 : 0 < vps := Nat.pos_of_dvd_of_pos hd (by norm_num)
  have hq : pageInput (some (p : ℤ)) = ((p : ℕ) : ℤ) :=
    pageInput_some _ (by exact_mod_cast Nat.one_le_iff_ne_zero.mp hp)
  have he := requestResults_eval_ok vps ⟨some (p : ℤ), rest⟩
    (fun _ => Except.ok resp) (p : ℤ) resp h0.ne' hq
    (inRange_q vps (p : ℤ) h0 (by exact_mod_cast hp) (by exact_mod_cast hpl)) rfl
  rw [Int.cast_natCast] at he
  rw [offsetPosition_natCast vps p hd h0 hp] at he
  simp only [jsTrunc_natCast, jsSplice_natCast] at he
  rw [he]
  rw [if_neg ?hcond]
  case hcond =>
    rintro (h | h)
    · exact hguard (Or.inl h)
    · exact hguard (Or.inr (by exact_mod_cast h))

/-- Claim C4: for every valid request with `virtualPageSize` dividing the
remote page size, the returned results are exactly the slice of the fetched
remote page's results of length `virtualPageSize` starting at
`offsetPosition = ((virtualPage - 1) % offsetCount) * virtualPageSize`, so
the returned results length equals `virtualPageSize` whenever the remote
page holds a full window (it may be shorter only past the end of data). -/
theorem claim_C4 (vps p : ℕ) (rest : ρ) (resp : RemotePage α)
    (hd : vps ∣ 20) (hp : 1 ≤ p) (hpl : p ≤ 1000 * (20 / vps))
    (hne : resp.results ≠ [])
    (hoff : (p - 1) % (20 / vps) * vps ≤ resp.results.length) :
    (requestResults vps ⟨some (p : ℤ), rest⟩ (fun _ => Except.ok resp)).2
        = Except.ok (ReqOutcome.page
            { page := (p : ℤ)
              total_pages := ⌈(resp.total_results : ℚ) / (vps : ℚ)⌉
              total_results := resp.total_results
              results := ((annotate ⌈(p : ℚ) / ((20 : ℚ) / (vps : ℚ))⌉ resp.results).drop
                  ((p - 1) % (20 / vps) * vps)).take vps })
      ∧ ((p - 1) % (20 / vps) * vps + vps ≤ resp.results.length →
          (((annotate ⌈(p : ℚ) / ((20 : ℚ) / (vps : ℚ))⌉ resp.results).drop
              ((p - 1) % (20 / vps) * vps)).take vps).length = vps) := by
  have hlen : resp.results.length ≠ 0 := by
    intro h
    exact hne (List.length_eq_zero.mp h)
  constructor
  · exact requestResults_success vps p rest resp hd hp hpl
      (by rintro (h | h) <;> omega)
  · intro hfull
    rw [List.length_take, List.length_drop, annotate_length]
    omega

theorem claim_C4_witness :
    ((requestResults 10 ⟨some ((3 : ℕ) : ℤ), ()⟩
        (fun _ => Except.ok (⟨[5, 6, 7, 8, 9], 25⟩ : RemotePage ℕ))).2
        = Except.ok (ReqOutcome.page
            { page := ((3 : ℕ) : ℤ)
              total_pages := ⌈(((⟨[5, 6, 7, 8, 9], 25⟩ : RemotePage ℕ).total_results : ℕ) : ℚ)
                / ((10 : ℕ) : ℚ)⌉
              total_results := 25
              results := ((annotate ⌈((3 : ℕ) : ℚ) / ((20 : ℚ) / ((10 : ℕ) : ℚ))⌉
                  [5, 6, 7, 8, 9]).drop ((3 - 1) % (20 / 10) * 10)).take 10 })
      ∧ ((3 - 1) % (20 / 10) * 10 + 10 ≤ ([5, 6, 7, 8, 9] : List ℕ).length →
          (((annotate ⌈((3 : ℕ) : ℚ) / ((20 : ℚ) / ((10 : ℕ) : ℚ))⌉
              [5, 6, 7, 8, 9]).drop ((3 - 1) % (20 / 10) * 10)).take 10).length = 10)) :=
  claim_C4 10 3 () ⟨[5, 6, 7, 8, 9], 25⟩ (by decide) (by decide) (by decide)
    (by decide) (by decide)

/-- The index annotation, viewed through `Annot.index` alone: annotating a
list from position `i` yields the indices
`(rp - 1) * 20 + k + 1` for `k = i, i+1, ...`. -/
theorem annotateFrom_map_index (rp : ℤ) (l : List α) (i : ℕ) :
    (annotateFrom rp i l).map Annot.index
      = (List.range' i l.length).map (fun k : ℕ => (rp - 1) * 20 + (k : ℤ) + 1) := by
  induction l generalizing i with
  | nil => rfl
  | cons a l ih =>
    simp only [annotateFrom, List.map_cons, List.length_cons, List.range'_succ, ih]

/-- Slicing an annotated list is annotating the slice, shifted to its
absolute start position. -/
theorem annotate_slice_eq (rp : ℤ) (l : List α) (off n : ℕ) :
    ((annotate rp l).drop off).take n = annotateFrom rp off ((l.drop off).take n) := by
  unfold annotate
  rw [annotateFrom_drop, Nat.zero_add, annotateFrom_take]

/-- Claim C5: every record in a returned virtual page carries the 1-based
absolute index `(remotePageNumber - 1) * 20 + positionInRemotePage + 1`,
computed over the full remote result sequence before slicing: the indices of
the returned slice are exactly the consecutive absolute positions
`offsetPosition, ..., offsetPosition + length - 1`, each mapped through that
formula (so virtual pages served from one remote page tile its index range
with no gap or overlap). -/
theorem claim_C5 (vps p : ℕ) (rest : ρ) (resp : RemotePage α)
    (hd : vps ∣ 20) (hp : 1 ≤ p) (hpl : p ≤ 1000 * (20 / vps))
    (hne : resp.results ≠ [])
    (hoff : (p - 1) % (20 / vps) * vps ≤ resp.results.length) :
    (requestResults vps ⟨some (p : ℤ), rest⟩ (fun _ => Except.ok resp)).2
        = Except.ok (ReqOutcome.page
            { page := (p : ℤ)
              total_pages := ⌈(resp.total_results : ℚ) / (vps : ℚ)⌉
              total_results := resp.total_results
              results := ((annotate ⌈(p : ℚ) / ((20 : ℚ) / (vps : ℚ))⌉ resp.results).drop
                  ((p - 1) % (20 / vps) * vps)).take vps })
      ∧ (((annotate ⌈(p : ℚ) / ((20 : ℚ) / (vps : ℚ))⌉ resp.results).drop
            ((p - 1) % (20 / vps) * vps)).take vps).map Annot.index
          = (List.range' ((p - 1) % (20 / vps) * vps)
              (min vps (resp.results.length - (p - 1) % (20 / vps) * vps))).map
              (fun k : ℕ => (⌈(p : ℚ) / ((20 : ℚ) / (vps : ℚ))⌉ - 1) * 20 + (k : ℤ) + 1) := by
  have hlen : resp.results.length ≠ 0 := by
    intro h
    exact hne (List.length_eq_zero.mp h)
  constructor
  · exact requestResults_success vps p rest resp hd hp hpl
      (by rintro (h | h) <;> omega)
  · rw [annotate_slice_eq, annotateFrom_map_index, List.length_take, List.length_drop]

theorem claim_C5_witness :
    ((requestResults 10 ⟨some ((2 : ℕ) : ℤ), ()⟩
        (fun _ => Except.ok (⟨List.range 20, 25⟩ : RemotePage ℕ))).2
        = Except.ok (ReqOutcome.page
            { page := ((2 : ℕ) : ℤ)
              total_pages := ⌈(((⟨List.range 20, 25⟩ : RemotePage ℕ).total_results : ℕ) : ℚ)
                / ((10 : ℕ) : ℚ)⌉
              total_results := 25
              results := ((annotate ⌈((2 : ℕ) : ℚ) / ((20 : ℚ) / ((10 : ℕ) : ℚ))⌉
                  (List.range 20)).drop ((2 - 1) % (20 / 10) * 10)).take 10 })
      ∧ (((annotate ⌈((2 : ℕ) : ℚ) / ((20 : ℚ) / ((10 : ℕ) : ℚ))⌉
            (List.range 20)).drop ((2 - 1) % (20 / 10) * 10)).take 10).map Annot.index
          = (List.range' ((2 - 1) % (20 / 10) * 10)
              (min 10 ((List.range 20).length - (2 - 1) % (20 / 10) * 10))).map
              (fun k : ℕ => (⌈((2 : ℕ) : ℚ) / ((20 : ℚ) / ((10 : ℕ) : ℚ))⌉ - 1) * 20
                + (k : ℤ) + 1)) :=
  claim_C5 10 2 () ⟨List.range 20, 25⟩ (by decide) (by decide) (by decide)
    (by decide) (by decide)

/-- Claim C6: for every successful paginated fetch, the returned page echoes
the requested `virtualPage`, its `total_pages` is
`⌈total_results / virtualPageSize⌉`, and its `total_results` is echoed from
the remote page, regardless of which slice was taken. -/
theorem claim_C6 (vps p : ℕ) (rest : ρ) (resp : RemotePage α) (v : VirtualPage α)
    (hp : 1 ≤ p)
    (h : (requestResults vps ⟨some (p : ℤ), rest⟩ (fun _ => Except.ok resp)).2
        = Except.ok (ReqOutcome.page v)) :
    v.page = (p : ℤ)
      ∧ v.total_pages = ⌈(resp.total_results : ℚ) / (vps : ℚ)⌉
      ∧ v.total_results = resp.total_results := by
  by_cases hv : vps = 0
  · subst hv
    rw [requestResults_zero] at h
    simp at h
  · have hq : pageInput (some (p : ℤ)) = ((p : ℕ) : ℤ) :=
      pageInput_some _ (by exact_mod_cast Nat.one_le_iff_ne_zero.mp hp)
    by_cases hout : (((p : ℕ) : ℤ) : ℚ) < 1
        ∨ (((p : ℕ) : ℤ) : ℚ) > 1000 * ((20 : ℚ) / (vps : ℚ))
    · rw [requestResults_reject vps _ _ ((p : ℕ) : ℤ) hv hq hout] at h
      simp at h
    · have he := requestResults_eval_ok vps ⟨some (p : ℤ), rest⟩
        (fun _ => Except.ok resp) ((p : ℕ) : ℤ) resp hv hq hout rfl
      rw [he] at h
      dsimp only at h
      split at h
      · exact absurd h (by simp)
      · rw [Except.ok.injEq, ReqOutcome.page.injEq] at h
        subst h
        exact ⟨rfl, rfl, rfl⟩

theorem claim_C6_witness :
    (VirtualPage.page
        { page := ((1 : ℕ) : ℤ)
          total_pages := ⌈(((⟨[9], 1⟩ : RemotePage ℕ).total_results : ℕ) : ℚ)
            / ((20 : ℕ) : ℚ)⌉
          total_results := (⟨[9], 1⟩ : RemotePage ℕ).total_results
          results := ((annotate ⌈((1 : ℕ) : ℚ) / ((20 : ℚ) / ((20 : ℕ) : ℚ))⌉
              (⟨[9], 1⟩ : RemotePage ℕ).results).drop
              ((1 - 1) % (20 / 20) * 20)).take 20 })
      = ((1 : ℕ) : ℤ)
    ∧ (VirtualPage.total_pages
        { page := ((1 : ℕ) : ℤ)
          total_pages := ⌈(((⟨[9], 1⟩ : RemotePage ℕ).total_results : ℕ) : ℚ)
            / ((20 : ℕ) : ℚ)⌉
          total_results := (⟨[9], 1⟩ : RemotePage ℕ).total_results
          results := ((annotate ⌈((1 : ℕ) : ℚ) / ((20 : ℚ) / ((20 : ℕ) : ℚ))⌉
              (⟨[9], 1⟩ : RemotePage ℕ).results).drop
              ((1 - 1) % (20 / 20) * 20)).take 20 })
      = ⌈(((⟨[9], 1⟩ : RemotePage ℕ).total_results : ℕ) : ℚ) / ((20 : ℕ) : ℚ)⌉
    ∧ (VirtualPage.total_results
        { page := ((1 : ℕ) : ℤ)
          total_pages := ⌈(((⟨[9], 1⟩ : RemotePage ℕ).total_results : ℕ) : ℚ)
            / ((20 : ℕ) : ℚ)⌉
          total_results := (⟨[9], 1⟩ : RemotePage ℕ).total_results
          results := ((annotate ⌈((1 : ℕ) : ℚ) / ((20 : ℚ) / ((20 : ℕ) : ℚ))⌉
              (⟨[9], 1⟩ : RemotePage ℕ).results).drop
              ((1 - 1) % (20 / 20) * 20)).take 20 })
      = (⟨[9], 1⟩ : RemotePage ℕ).total_results :=
  claim_C6 20 1 () ⟨[9], 1⟩ _ (by decide)
    (requestResults_success 20 1 () ⟨[9], 1⟩ (by decide) (by decide) (by decide)
      (by decide))

/-- Claim C7: a request whose remote fetch succeeds but returns an empty
result sequence, or whose computed `offsetPosition` exceeds the returned
results length, fails with the `No results.` error — after the single remote
request was issued. In particular, with `total_results = 0` (empty results)
every virtual page request fails this way. -/
theorem claim_C7 (vps p : ℕ) (rest : ρ) (resp : RemotePage α)
    (h0 : 0 < vps) (hp : 1 ≤ p) (hpl : p ≤ 1000 * (20 / vps))
    (hguard : resp.results.length = 0 ∨
      jsMod ((p : ℚ) - 1) ((20 : ℚ) / (vps : ℚ)) * (vps : ℚ)
        > (resp.results.length : ℚ)) :
    requestResults vps ⟨some (p : ℤ), rest⟩ (fun _ => Except.ok resp)
      = ([⟨some ⌈(p : ℚ) / ((20 : ℚ) / (vps : ℚ))⌉, rest⟩],
          Except.error PageError.noResults) := by
  have hq : pageInput (some (p : ℤ)) = ((p : ℕ) : ℤ) :=
    pageInput_some _ (by exact_mod_cast Nat.one_le_iff_ne_zero.mp hp)
  have he := requestResults_eval_ok vps ⟨some (p : ℤ), rest⟩
    (fun _ => Except.ok resp) ((p : ℕ) : ℤ) resp h0.ne' hq
    (inRange_q vps ((p : ℕ) : ℤ) h0 (by exact_mod_cast hp) (by exact_mod_cast hpl)) rfl
  rw [Int.cast_natCast] at he
  rw [he, if_pos hguard]

theorem claim_C7_witness :
    requestResults 10 ⟨some ((1 : ℕ) : ℤ), ()⟩
        (fun _ => Except.ok (⟨[], 0⟩ : RemotePage ℕ))
      = ([⟨some ⌈((1 : ℕ) : ℚ) / ((20 : ℚ) / ((10 : ℕ) : ℚ))⌉, ()⟩],
          Except.error PageError.noResults) :=
  claim_C7 10 1 () ⟨[], 0⟩ (by decide) (by decide) (by decide) (Or.inl rfl)

/-- Claim C10: when the remote page's results are non-empty and the computed
`offsetPosition` equals the results length exactly, the call does not fail
with the `No results.` error (the emptiness check uses strictly-greater-than
on `offsetPosition`) but succeeds with an empty results sequence. -/
theorem claim_C10 (vps p : ℕ) (rest : ρ) (resp : RemotePage α)
    (hd : vps ∣ 20) (hp : 1 ≤ p) (hpl : p ≤ 1000 * (20 / vps))
    (hne : resp.results ≠ [])
    (heq : (p - 1) % (20 / vps) * vps = resp.results.length) :
    (requestResults vps ⟨some (p : ℤ), rest⟩ (fun _ => Except.ok resp)).2
      = Except.ok (ReqOutcome.page
          { page := (p : ℤ)
            total_pages := ⌈(resp.total_results : ℚ) / (vps : ℚ)⌉
            total_results := resp.total_results
            results := [] }) := by
  have hs := requestResults_success vps p rest resp hd hp hpl (by
    rintro (h | h)
    · exact hne (List.length_eq_zero.mp h)
    · omega)
  have hnil : ((annotate ⌈(p : ℚ) / ((20 : ℚ) / (vps : ℚ))⌉ resp.results).drop
      ((p - 1) % (20 / vps) * vps)).take vps = [] := by
    have hdrop : (annotate ⌈(p : ℚ) / ((20 : ℚ) / (vps : ℚ))⌉ resp.results).drop
        ((p - 1) % (20 / vps) * vps) = [] := by
      apply List.drop_eq_nil_of_le
      rw [annotate_length]
      omega
    rw [hdrop, List.take_nil]
  rw [hs, hnil]

theorem claim_C10_witness :
    (requestResults 10 ⟨some ((2 : ℕ) : ℤ), ()⟩
        (fun _ => Except.ok (⟨[0, 1, 2, 3, 4, 5, 6, 7, 8, 9], 10⟩ : RemotePage ℕ))).2
      = Except.ok (ReqOutcome.page
          { page := ((2 : ℕ) : ℤ)
            total_pages := ⌈(((⟨[0, 1, 2, 3, 4, 5, 6, 7, 8, 9], 10⟩
                : RemotePage ℕ).total_results : ℕ) : ℚ) / ((10 : ℕ) : ℚ)⌉
            total_results := 10
            results := [] }) :=
  claim_C10 10 2 () ⟨[0, 1, 2, 3, 4, 5, 6, 7, 8, 9], 10⟩ (by decide) (by decide)
    (by decide) (by decide) (by decide)

/-- Claim C8: every transport-level failure is one of exactly three
classified errors — a server error carrying the server's payload, a
no-response error, or an unclassified error — and whenever the paginator has
issued its request, it propagates the failure to its caller unchanged,
without branching on the failure kind, retrying, or swallowing it. -/
theorem claim_C8 (e : AxiosFailure) :
    ((∃ payload, classifyAxiosFailure e = .serverError payload)
      ∨ classifyAxiosFailure e = .noResponse
      ∨ classifyAxiosFailure e = .unknownError)
    ∧ ∀ (ρ α : Type) (vps : ℕ) (params : Params ρ),
        (requestResults (α := α) vps params
            (fun _ => Except.error (classifyAxiosFailure e))).1 ≠ [] →
        (requestResults (α := α) vps params
            (fun _ => Except.error (classifyAxiosFailure e))).2
          = Except.error (.transport (classifyAxiosFailure e)) := by
  constructor
  · rcases e with ⟨resp, req⟩
    cases resp with
    | some payload => exact Or.inl ⟨payload, rfl⟩
    | none =>
      cases req with
      | true => exact Or.inr (Or.inl rfl)
      | false => exact Or.inr (Or.inr rfl)
  · intro ρ α vps params hne
    by_cases hv : vps = 0
    · subst hv
      rw [requestResults_zero]
    · by_cases hout : ((pageInput params.page : ℤ) : ℚ) < 1
          ∨ ((pageInput params.page : ℤ) : ℚ) > 1000 * ((20 : ℚ) / (vps : ℚ))
      · rw [requestResults_reject vps params _ (pageInput params.page) hv rfl hout] at hne
        simp at hne
      · rw [requestResults_eval_err vps params _ (pageInput params.page)
          (classifyAxiosFailure e) hv rfl hout rfl]

theorem claim_C8_witness :
    ((∃ payload, classifyAxiosFailure ⟨none, true⟩ = .serverError payload)
      ∨ classifyAxiosFailure ⟨none, true⟩ = .noResponse
      ∨ classifyAxiosFailure ⟨none, true⟩ = .unknownError)
    ∧ (requestResults 0 (⟨none, ()⟩ : Params Unit)
          (fun _ => (Except.error (classifyAxiosFailure ⟨none, true⟩)
            : Except TransportError (RemotePage ℕ)))).2
        = Except.error (.transport (classifyAxiosFailure ⟨none, true⟩)) :=
  ⟨(claim_C8 ⟨none, true⟩).1,
    (claim_C8 ⟨none, true⟩).2 Unit ℕ 0 ⟨none, ()⟩ (by decide)⟩

/-- Claim C9: client construction with a missing (falsy) API key fails
synchronously before any resource object is created — the created-resources
trace is empty — and construction with an API key present succeeds, creating
the five resource objects. -/
theorem claim_C9 (a : ApiOptions) (w : WrapperOptions) :
    (jsTruthyStr a.api_key = false →
      constructV3 a w = ([], Except.error "API key required."))
    ∧ (jsTruthyStr a.api_key = true →
        ∃ v : V3State, constructV3 a w
          = ([.find, .search, .movie, .tv, .person], Except.ok v)) := by
  constructor
  · intro h
    unfold constructV3
    rw [if_pos h]
  · intro h
    unfold constructV3
    rw [if_neg (by simp [h])]
    exact ⟨_, rfl⟩

theorem claim_C9_witness :
    (constructV3 ⟨none, none, none, none, none, none⟩ ⟨none, none, none⟩
        = ([], Except.error "API key required."))
    ∧ ∃ v : V3State,
        constructV3 ⟨some "k", none, none, none, none, none⟩ ⟨none, none, none⟩
          = ([.find, .search, .movie, .tv, .person], Except.ok v) :=
  ⟨(claim_C9 ⟨none, none, none, none, none, none⟩ ⟨none, none, none⟩).1 rfl,
    (claim_C9 ⟨some "k", none, none, none, none, none⟩ ⟨none, none, none⟩).2 rfl⟩

end TMDb
